import Mathlib

/-!
Verification of the NAT-type classifier of `pr-nat-type`.

The repository has two source files:
* `src/getNatType.ts` — the main module: `judgeNatType` classifies a NAT from
  two STUN observations, and `getNatType` orchestrates two collections and the
  classification.
* an unnamed second file holding an older variant of `judgeNatType` working on
  raw ICE candidates.

We embed both classifiers shallowly.  TypeScript strings become `String`;
optional record fields (`ip?: string`) become `Option String`; JavaScript
truthiness of a `string | undefined` (`!info?.ip`) is captured by
`missingField` (a field is falsy exactly when it is absent or the empty
string).  The orchestrator `getNatType` is embedded as a function of the two
collection outcomes, each an `Except Unit (Option CandidateInfo)`:
`Except.error` models an exception thrown during collection (caught by the
orchestrator's try/catch), `Except.ok none` models the `null` failure
sentinel, and `Except.ok (some info)` a delivered candidate record.
-/

/-- `NatType` from `src/getNatType.ts` line 1:
`'Full Cone' | 'Restricted Cone' | 'Port Restricted Cone' | 'Symmetric' | 'Unknown'`. -/
inductive NatType where
  | FullCone
  | RestrictedCone
  | PortRestrictedCone
  | Symmetric
  | Unknown
  deriving DecidableEq, Repr

/-- `CandidateInfo` from `src/getNatType.ts` lines 3-8: four optional string
fields (public IP, public port, STUN server IP, STUN server port). -/
structure CandidateInfo where
  ip : Option String
  port : Option String
  serve_ip : Option String
  serve_port : Option String
  deriving DecidableEq, Repr

/-- JavaScript falsiness of a `string | undefined` value: `!x` is true exactly
when `x` is `undefined` or the empty string. -/
def missingField (s : Option String) : Bool :=
  match s with
  | none => true
  | some v => v == ""

/-- The validity guard of `judgeNatType` (`src/getNatType.ts` line 17): true
when any of the eight fields of the two records is falsy. -/
def anyMissing (info_1 info_2 : CandidateInfo) : Bool :=
  missingField info_1.ip || missingField info_1.port ||
  missingField info_1.serve_ip || missingField info_1.serve_port ||
  missingField info_2.ip || missingField info_2.port ||
  missingField info_2.serve_ip || missingField info_2.serve_port

/-- An observation is valid when all four of its fields are present and
non-empty (spec §3 invariant; complement of the per-record part of the
guard on line 17). -/
def validObservation (i : CandidateInfo) : Bool :=
  !missingField i.ip && !missingField i.port &&
  !missingField i.serve_ip && !missingField i.serve_port

/-- Reading a field after the guard has passed (`info_1.ip` at line 21 is known
truthy there); the default is never used on valid records. -/
def fieldVal (s : Option String) : String := s.getD ""

/-- Full-cone test, `src/getNatType.ts` line 28: `ip1 === ip2 && port1 === port2`. -/
def fullConeCheck (info_1 info_2 : CandidateInfo) : Bool :=
  fieldVal info_1.ip == fieldVal info_2.ip && fieldVal info_1.port == fieldVal info_2.port

/-- `isIpFixedWithTarget1`, `src/getNatType.ts` line 35:
`ip1 === target1_ip && (ip2 !== target1_ip || port2 !== port1)`. -/
def isIpFixedWithTarget1 (info_1 info_2 : CandidateInfo) : Bool :=
  fieldVal info_1.ip == fieldVal info_1.serve_ip &&
    (fieldVal info_2.ip != fieldVal info_1.serve_ip || fieldVal info_2.port != fieldVal info_1.port)

/-- `isIpFixedWithTarget2`, `src/getNatType.ts` line 36:
`ip2 === target2_ip && (ip1 !== target2_ip || port1 !== port2)`. -/
def isIpFixedWithTarget2 (info_1 info_2 : CandidateInfo) : Bool :=
  fieldVal info_2.ip == fieldVal info_2.serve_ip &&
    (fieldVal info_1.ip != fieldVal info_2.serve_ip || fieldVal info_1.port != fieldVal info_2.port)

/-- `isPortFixedWithTarget1`, `src/getNatType.ts` line 43:
`ip1 === target1_ip && port1 === target1_port && (ip2 !== target1_ip || port2 !== target1_port)`. -/
def isPortFixedWithTarget1 (info_1 info_2 : CandidateInfo) : Bool :=
  fieldVal info_1.ip == fieldVal info_1.serve_ip &&
  fieldVal info_1.port == fieldVal info_1.serve_port &&
    (fieldVal info_2.ip != fieldVal info_1.serve_ip || fieldVal info_2.port != fieldVal info_1.serve_port)

/-- `isPortFixedWithTarget2`, `src/getNatType.ts` line 44:
`ip2 === target2_ip && port2 === target2_port && (ip1 !== target2_ip || port1 !== target2_port)`. -/
def isPortFixedWithTarget2 (info_1 info_2 : CandidateInfo) : Bool :=
  fieldVal info_2.ip == fieldVal info_2.serve_ip &&
  fieldVal info_2.port == fieldVal info_2.serve_port &&
    (fieldVal info_1.ip != fieldVal info_2.serve_ip || fieldVal info_1.port != fieldVal info_2.serve_port)

/-- `judgeNatType` from `src/getNatType.ts` lines 16-52.  The early returns of
the source become nested `else` branches; the conditions are the named
definitions above, each traced to its source line. -/
def judgeNatType (info_1 info_2 : CandidateInfo) : NatType :=
  if anyMissing info_1 info_2 then NatType.Unknown
  else if fullConeCheck info_1 info_2 then NatType.FullCone
  else if isIpFixedWithTarget1 info_1 info_2 || isIpFixedWithTarget2 info_1 info_2 then
    NatType.RestrictedCone
  else if isPortFixedWithTarget1 info_1 info_2 || isPortFixedWithTarget2 info_1 info_2 then
    NatType.PortRestrictedCone
  else NatType.Symmetric

/-- `getNatType` from `src/getNatType.ts` lines 99-115, as a function of the two
collection outcomes (the collector itself is network plumbing, out of the
embedding).  An `Except.error` on either await is caught by the try/catch and
yields `("", Unknown)`; a `null` result yields the same; otherwise the result
is `{ address: info1.ip || '', natType: judgeNatType(info1, info2) }` —
`info1.ip || ''` coincides with `getD ""` since `"" || ''` is `''`. -/
def getNatType (r1 r2 : Except Unit (Option CandidateInfo)) : String × NatType :=
  match r1 with
  | Except.error _ => ("", NatType.Unknown)
  | Except.ok info1? =>
    match r2 with
    | Except.error _ => ("", NatType.Unknown)
    | Except.ok info2? =>
      match info1?, info2? with
      | none, _ => ("", NatType.Unknown)
      | some _, none => ("", NatType.Unknown)
      | some info1, some info2 => (fieldVal info1.ip, judgeNatType info1 info2)

/-- ICE candidate as used by the variant classifier in `src/unnamed/part_000`:
it reads only `address : string` and `port : number | null` of
`RTCIceCandidate`. -/
structure IceCandidate where
  address : String
  port : Option Nat
  deriving DecidableEq, Repr

/-- Guard of the Restricted-Cone assignment, `src/unnamed/part_000` line 15:
`candidate_1.address === candidate_2.address && candidate_1.port !== candidate_2.port`. -/
def variantRestrictedGuard (candidate_1 candidate_2 : IceCandidate) : Bool :=
  candidate_1.address == candidate_2.address && candidate_1.port != candidate_2.port

/-- Guard of the Port-Restricted-Cone assignment, `src/unnamed/part_000`
line 20 (textually the same condition as line 15). -/
def variantPortRestrictedGuard (candidate_1 candidate_2 : IceCandidate) : Bool :=
  candidate_1.address == candidate_2.address && candidate_1.port != candidate_2.port

/-- `judgeNatType` from `src/unnamed/part_000` lines 2-27 (on the head
candidates): a mutable `natType` initialised to `Symmetric` then possibly
reassigned by three successive `if`s, the last assignment winning. -/
def variantJudgeNatType (candidate_1 candidate_2 : IceCandidate) : NatType :=
  let natType := NatType.Symmetric
  let natType :=
    if candidate_1.address == candidate_2.address && candidate_1.port == candidate_2.port then
      NatType.FullCone
    else natType
  let natType :=
    if variantRestrictedGuard candidate_1 candidate_2 then NatType.RestrictedCone
    else natType
  let natType :=
    if variantPortRestrictedGuard candidate_1 candidate_2 then NatType.PortRestrictedCone
    else natType
  natType

/-- Scenario A, first observation (spec §8): public endpoint 1.2.3.4:5000,
target 10.0.0.1:3478. -/
def obsA1 : CandidateInfo :=
  { ip := some "1.2.3.4", port := some "5000", serve_ip := some "10.0.0.1", serve_port := some "3478" }

/-- Scenario A, second observation: public endpoint 1.2.3.4:5000,
target 10.0.0.2:19302. -/
def obsA2 : CandidateInfo :=
  { ip := some "1.2.3.4", port := some "5000", serve_ip := some "10.0.0.2", serve_port := some "19302" }

/-- Scenario B, second observation: public endpoint 1.2.3.4:6001,
target 10.0.0.2:19302 (first observation is `obsA1`). -/
def obsB2 : CandidateInfo :=
  { ip := some "1.2.3.4", port := some "6001", serve_ip := some "10.0.0.2", serve_port := some "19302" }

/-- Scenario C, second observation: public port absent. -/
def obsC2 : CandidateInfo :=
  { ip := some "1.2.3.4", port := none, serve_ip := some "10.0.0.2", serve_port := some "19302" }

/-- A concrete valid pair exercising the Restricted-Cone branch: the first
observation's public IP equals its own target IP. -/
def obsR1 : CandidateInfo :=
  { ip := some "9.9.9.9", port := some "1000", serve_ip := some "9.9.9.9", serve_port := some "7000" }

/-- Companion observation for `obsR1` with a different public endpoint. -/
def obsR2 : CandidateInfo :=
  { ip := some "8.8.8.8", port := some "2000", serve_ip := some "7.7.7.7", serve_port := some "9000" }

theorem anyMissing_eq_false_of_valid {i1 i2 : CandidateInfo}
    (h1 : validObservation i1 = true) (h2 : validObservation i2 = true) :
    anyMissing i1 i2 = false := by
  simp only [validObservation, Bool.and_eq_true, Bool.not_eq_true'] at h1 h2
  obtain ⟨⟨⟨a1, b1⟩, c1⟩, d1⟩ := h1
  obtain ⟨⟨⟨a2, b2⟩, c2⟩, d2⟩ := h2
  simp [anyMissing, a1, b1, c1, d1, a2, b2, c2, d2]

theorem ipFixedOr_iff (info_1 info_2 : CandidateInfo) :
    (isIpFixedWithTarget1 info_1 info_2 || isIpFixedWithTarget2 info_1 info_2) = true ↔
      ((fieldVal info_1.ip = fieldVal info_1.serve_ip ∧
          (fieldVal info_2.ip ≠ fieldVal info_1.ip ∨ fieldVal info_2.port ≠ fieldVal info_1.port)) ∨
       (fieldVal info_2.ip = fieldVal info_2.serve_ip ∧
          (fieldVal info_1.ip ≠ fieldVal info_2.ip ∨ fieldVal info_1.port ≠ fieldVal info_2.port))) := by
  simp only [isIpFixedWithTarget1, isIpFixedWithTarget2, Bool.or_eq_true, Bool.and_eq_true,
    beq_iff_eq, bne_iff_ne]
  constructor
  · rintro (⟨h, h'⟩ | ⟨h, h'⟩)
    · exact Or.inl ⟨h, by rwa [← h] at h'⟩
    · exact Or.inr ⟨h, by rwa [← h] at h'⟩
  · rintro (⟨h, h'⟩ | ⟨h, h'⟩)
    · exact Or.inl ⟨h, by rwa [h] at h'⟩
    · exact Or.inr ⟨h, by rwa [h] at h'⟩

theorem portFixedOr_iff (info_1 info_2 : CandidateInfo) :
    (isPortFixedWithTarget1 info_1 info_2 || isPortFixedWithTarget2 info_1 info_2) = true ↔
      ((fieldVal info_1.ip = fieldVal info_1.serve_ip ∧ fieldVal info_1.port = fieldVal info_1.serve_port ∧
          (fieldVal info_2.ip ≠ fieldVal info_1.serve_ip ∨ fieldVal info_2.port ≠ fieldVal info_1.serve_port)) ∨
       (fieldVal info_2.ip = fieldVal info_2.serve_ip ∧ fieldVal info_2.port = fieldVal info_2.serve_port ∧
          (fieldVal info_1.ip ≠ fieldVal info_2.serve_ip ∨ fieldVal info_1.port ≠ fieldVal info_2.serve_port))) := by
  simp [isPortFixedWithTarget1, isPortFixedWithTarget2, and_assoc]

theorem portFixed_imp_ipFixed_1 (info_1 info_2 : CandidateInfo)
    (h : isPortFixedWithTarget1 info_1 info_2 = true) :
    isIpFixedWithTarget1 info_1 info_2 = true := by
  simp only [isPortFixedWithTarget1, isIpFixedWithTarget1, Bool.and_eq_true, beq_iff_eq,
    Bool.or_eq_true, bne_iff_ne] at h ⊢
  obtain ⟨⟨hip, hport⟩, h3 | h3⟩ := h
  · exact ⟨hip, Or.inl h3⟩
  · exact ⟨hip, Or.inr (by rw [hport]; exact h3)⟩

theorem portFixed_imp_ipFixed_2 (info_1 info_2 : CandidateInfo)
    (h : isPortFixedWithTarget2 info_1 info_2 = true) :
    isIpFixedWithTarget2 info_1 info_2 = true := by
  simp only [isPortFixedWithTarget2, isIpFixedWithTarget2, Bool.and_eq_true, beq_iff_eq,
    Bool.or_eq_true, bne_iff_ne] at h ⊢
  obtain ⟨⟨hip, hport⟩, h3 | h3⟩ := h
  · exact ⟨hip, Or.inl h3⟩
  · exact ⟨hip, Or.inr (by rw [hport]; exact h3)⟩

theorem portFixedOr_eq_false_of_ipFixedOr_eq_false (info_1 info_2 : CandidateInfo)
    (h : (isIpFixedWithTarget1 info_1 info_2 || isIpFixedWithTarget2 info_1 info_2) = false) :
    (isPortFixedWithTarget1 info_1 info_2 || isPortFixedWithTarget2 info_1 info_2) = false := by
  rw [Bool.or_eq_false_iff] at h ⊢
  constructor
  · rw [Bool.eq_false_iff]
    intro hc
    exact absurd (portFixed_imp_ipFixed_1 info_1 info_2 hc) (by simp [h.1])
  · rw [Bool.eq_false_iff]
    intro hc
    exact absurd (portFixed_imp_ipFixed_2 info_1 info_2 hc) (by simp [h.2])

/-- C1: for every pair of valid observations (all four fields present and
non-empty) whose public IPs are equal and whose public ports are equal,
`judgeNatType` returns `FullCone`, regardless of the targets. -/
theorem judgeNatType_fullCone_of_equal_public_endpoint
    (info_1 info_2 : CandidateInfo)
    (h1 : validObservation info_1 = true) (h2 : validObservation info_2 = true)
    (hip : fieldVal info_1.ip = fieldVal info_2.ip)
    (hport : fieldVal info_1.port = fieldVal info_2.port) :
    judgeNatType info_1 info_2 = NatType.FullCone := by
  have hm := anyMissing_eq_false_of_valid h1 h2
  simp [judgeNatType, hm, fullConeCheck, hip, hport]

/-- Witness for C1 at scenario A: public endpoints both 1.2.3.4:5000, targets
10.0.0.1:3478 and 10.0.0.2:19302. -/
theorem judgeNatType_fullCone_of_equal_public_endpoint_witness :
    validObservation obsA1 = true ∧ validObservation obsA2 = true ∧
    fieldVal obsA1.ip = fieldVal obsA2.ip ∧ fieldVal obsA1.port = fieldVal obsA2.port ∧
    judgeNatType obsA1 obsA2 = NatType.FullCone :=
  ⟨by decide, by decide, by decide, by decide,
   judgeNatType_fullCone_of_equal_public_endpoint obsA1 obsA2
     (by decide) (by decide) (by decide) (by decide)⟩

/-- C2: for every pair of valid observations on which rule 1 (Full Cone) does
not match, `judgeNatType` returns `RestrictedCone` exactly when, for at least
one ordering of the pair as (self, other), self's public IP equals self's own
target IP and the other observation's public endpoint differs from self's
public endpoint in IP or in port. -/
theorem judgeNatType_restrictedCone_iff (info_1 info_2 : CandidateInfo)
    (h1 : validObservation info_1 = true) (h2 : validObservation info_2 = true)
    (hnotfull : ¬(fieldVal info_1.ip = fieldVal info_2.ip ∧
                  fieldVal info_1.port = fieldVal info_2.port)) :
    judgeNatType info_1 info_2 = NatType.RestrictedCone ↔
      ((fieldVal info_1.ip = fieldVal info_1.serve_ip ∧
          (fieldVal info_2.ip ≠ fieldVal info_1.ip ∨ fieldVal info_2.port ≠ fieldVal info_1.port)) ∨
       (fieldVal info_2.ip = fieldVal info_2.serve_ip ∧
          (fieldVal info_1.ip ≠ fieldVal info_2.ip ∨ fieldVal info_1.port ≠ fieldVal info_2.port))) := by
  have hm := anyMissing_eq_false_of_valid h1 h2
  have hfc : fullConeCheck info_1 info_2 = false := by
    rw [Bool.eq_false_iff]
    intro hc
    exact hnotfull (by simpa [fullConeCheck] using hc)
  rw [← ipFixedOr_iff]
  by_cases hr : (isIpFixedWithTarget1 info_1 info_2 || isIpFixedWithTarget2 info_1 info_2) = true
  · simp [judgeNatType, hm, hfc, hr]
  · have hr' : (isIpFixedWithTarget1 info_1 info_2 || isIpFixedWithTarget2 info_1 info_2) = false :=
      Bool.eq_false_iff.mpr hr
    have hp := portFixedOr_eq_false_of_ipFixedOr_eq_false info_1 info_2 hr'
    simp [judgeNatType, hm, hfc, hr', hp]

/-- Witness for C2: a valid pair, not full-cone, where the first observation's
public IP equals its own target IP, classified `RestrictedCone`. -/
theorem judgeNatType_restrictedCone_iff_witness :
    validObservation obsR1 = true ∧ validObservation obsR2 = true ∧
    ¬(fieldVal obsR1.ip = fieldVal obsR2.ip ∧ fieldVal obsR1.port = fieldVal obsR2.port) ∧
    (judgeNatType obsR1 obsR2 = NatType.RestrictedCone ↔
      ((fieldVal obsR1.ip = fieldVal obsR1.serve_ip ∧
          (fieldVal obsR2.ip ≠ fieldVal obsR1.ip ∨ fieldVal obsR2.port ≠ fieldVal obsR1.port)) ∨
       (fieldVal obsR2.ip = fieldVal obsR2.serve_ip ∧
          (fieldVal obsR1.ip ≠ fieldVal obsR2.ip ∨ fieldVal obsR1.port ≠ fieldVal obsR2.port)))) :=
  ⟨by decide, by decide, by decide,
   judgeNatType_restrictedCone_iff obsR1 obsR2 (by decide) (by decide) (by decide)⟩

/-- C3: for every pair of valid observations on which neither rule 1 (Full
Cone) nor rule 2 (Restricted Cone) matches, `judgeNatType` returns
`PortRestrictedCone` exactly when, for at least one ordering as (self, other),
self's public IP and port equal its own target's IP and port while the other
observation's public endpoint differs from that target in IP or in port (rules
are tried in order 1, 2, 3, 4, first match winning). -/
theorem judgeNatType_portRestrictedCone_iff (info_1 info_2 : CandidateInfo)
    (h1 : validObservation info_1 = true) (h2 : validObservation info_2 = true)
    (hnotfull : ¬(fieldVal info_1.ip = fieldVal info_2.ip ∧
                  fieldVal info_1.port = fieldVal info_2.port))
    (hnotrc :
      ¬((fieldVal info_1.ip = fieldVal info_1.serve_ip ∧
           (fieldVal info_2.ip ≠ fieldVal info_1.ip ∨ fieldVal info_2.port ≠ fieldVal info_1.port)) ∨
        (fieldVal info_2.ip = fieldVal info_2.serve_ip ∧
           (fieldVal info_1.ip ≠ fieldVal info_2.ip ∨ fieldVal info_1.port ≠ fieldVal info_2.port)))) :
    judgeNatType info_1 info_2 = NatType.PortRestrictedCone ↔
      ((fieldVal info_1.ip = fieldVal info_1.serve_ip ∧
          fieldVal info_1.port = fieldVal info_1.serve_port ∧
          (fieldVal info_2.ip ≠ fieldVal info_1.serve_ip ∨
           fieldVal info_2.port ≠ fieldVal info_1.serve_port)) ∨
       (fieldVal info_2.ip = fieldVal info_2.serve_ip ∧
          fieldVal info_2.port = fieldVal info_2.serve_port ∧
          (fieldVal info_1.ip ≠ fieldVal info_2.serve_ip ∨
           fieldVal info_1.port ≠ fieldVal info_2.serve_port))) := by
  have hm := anyMissing_eq_false_of_valid h1 h2
  have hfc : fullConeCheck info_1 info_2 = false := by
    rw [Bool.eq_false_iff]
    intro hc
    exact hnotfull (by simpa [fullConeCheck] using hc)
  have hr : (isIpFixedWithTarget1 info_1 info_2 || isIpFixedWithTarget2 info_1 info_2) = false := by
    rw [Bool.eq_false_iff]
    intro hc
    exact hnotrc ((ipFixedOr_iff info_1 info_2).mp hc)
  have hp := portFixedOr_eq_false_of_ipFixedOr_eq_false info_1 info_2 hr
  rw [← portFixedOr_iff]
  simp [judgeNatType, hm, hfc, hr, hp]

/-- Witness for C3 at scenario B's pair (valid, rules 1 and 2 fail there). -/
theorem judgeNatType_portRestrictedCone_iff_witness :
    validObservation obsA1 = true ∧ validObservation obsB2 = true ∧
    ¬(fieldVal obsA1.ip = fieldVal obsB2.ip ∧ fieldVal obsA1.port = fieldVal obsB2.port) ∧
    ¬((fieldVal obsA1.ip = fieldVal obsA1.serve_ip ∧
         (fieldVal obsB2.ip ≠ fieldVal obsA1.ip ∨ fieldVal obsB2.port ≠ fieldVal obsA1.port)) ∨
      (fieldVal obsB2.ip = fieldVal obsB2.serve_ip ∧
         (fieldVal obsA1.ip ≠ fieldVal obsB2.ip ∨ fieldVal obsA1.port ≠ fieldVal obsB2.port))) ∧
    (judgeNatType obsA1 obsB2 = NatType.PortRestrictedCone ↔
      ((fieldVal obsA1.ip = fieldVal obsA1.serve_ip ∧
          fieldVal obsA1.port = fieldVal obsA1.serve_port ∧
          (fieldVal obsB2.ip ≠ fieldVal obsA1.serve_ip ∨
           fieldVal obsB2.port ≠ fieldVal obsA1.serve_port)) ∨
       (fieldVal obsB2.ip = fieldVal obsB2.serve_ip ∧
          fieldVal obsB2.port = fieldVal obsB2.serve_port ∧
          (fieldVal obsA1.ip ≠ fieldVal obsB2.serve_ip ∨
           fieldVal obsA1.port ≠ fieldVal obsB2.serve_port)))) :=
  ⟨by decide, by decide, by decide, by decide,
   judgeNatType_portRestrictedCone_iff obsA1 obsB2 (by decide) (by decide) (by decide) (by decide)⟩

/-- C4: for every pair of valid observations matching none of rules 1-3,
`judgeNatType` returns `Symmetric`. -/
theorem judgeNatType_symmetric_default (info_1 info_2 : CandidateInfo)
    (h1 : validObservation info_1 = true) (h2 : validObservation info_2 = true)
    (hnotfull : ¬(fieldVal info_1.ip = fieldVal info_2.ip ∧
                  fieldVal info_1.port = fieldVal info_2.port))
    (hnotrc :
      ¬((fieldVal info_1.ip = fieldVal info_1.serve_ip ∧
           (fieldVal info_2.ip ≠ fieldVal info_1.ip ∨ fieldVal info_2.port ≠ fieldVal info_1.port)) ∨
        (fieldVal info_2.ip = fieldVal info_2.serve_ip ∧
           (fieldVal info_1.ip ≠ fieldVal info_2.ip ∨ fieldVal info_1.port ≠ fieldVal info_2.port))))
    (hnotprc :
      ¬((fieldVal info_1.ip = fieldVal info_1.serve_ip ∧
           fieldVal info_1.port = fieldVal info_1.serve_port ∧
           (fieldVal info_2.ip ≠ fieldVal info_1.serve_ip ∨
            fieldVal info_2.port ≠ fieldVal info_1.serve_port)) ∨
        (fieldVal info_2.ip = fieldVal info_2.serve_ip ∧
           fieldVal info_2.port = fieldVal info_2.serve_port ∧
           (fieldVal info_1.ip ≠ fieldVal info_2.serve_ip ∨
            fieldVal info_1.port ≠ fieldVal info_2.serve_port)))) :
    judgeNatType info_1 info_2 = NatType.Symmetric := by
  have hm := anyMissing_eq_false_of_valid h1 h2
  have hfc : fullConeCheck info_1 info_2 = false := by
    rw [Bool.eq_false_iff]
    intro hc
    exact hnotfull (by simpa [fullConeCheck] using hc)
  have hr : (isIpFixedWithTarget1 info_1 info_2 || isIpFixedWithTarget2 info_1 info_2) = false := by
    rw [Bool.eq_false_iff]
    intro hc
    exact hnotrc ((ipFixedOr_iff info_1 info_2).mp hc)
  have hp : (isPortFixedWithTarget1 info_1 info_2 || isPortFixedWithTarget2 info_1 info_2) = false := by
    rw [Bool.eq_false_iff]
    intro hc
    exact hnotprc ((portFixedOr_iff info_1 info_2).mp hc)
  simp [judgeNatType, hm, hfc, hr, hp]

/-- Witness for C4 at scenario B: equal public IPs 1.2.3.4, public ports 5000
and 6001, neither public endpoint equal to its own target. -/
theorem judgeNatType_symmetric_default_witness :
    validObservation obsA1 = true ∧ validObservation obsB2 = true ∧
    ¬(fieldVal obsA1.ip = fieldVal obsB2.ip ∧ fieldVal obsA1.port = fieldVal obsB2.port) ∧
    judgeNatType obsA1 obsB2 = NatType.Symmetric :=
  ⟨by decide, by decide, by decide,
   judgeNatType_symmetric_default obsA1 obsB2 (by decide) (by decide) (by decide)
     (by decide) (by decide)⟩

/-- C5: if any of the eight fields of the two observations is absent or the
empty string, `judgeNatType` returns `Unknown`, whatever the other fields. -/
theorem judgeNatType_unknown_of_missing (info_1 info_2 : CandidateInfo)
    (h : missingField info_1.ip = true ∨ missingField info_1.port = true ∨
         missingField info_1.serve_ip = true ∨ missingField info_1.serve_port = true ∨
         missingField info_2.ip = true ∨ missingField info_2.port = true ∨
         missingField info_2.serve_ip = true ∨ missingField info_2.serve_port = true) :
    judgeNatType info_1 info_2 = NatType.Unknown := by
  have hm : anyMissing info_1 info_2 = true := by
    rcases h with h | h | h | h | h | h | h | h <;> simp [anyMissing, h]
  simp [judgeNatType, hm]

/-- Witness for C5 at scenario C: the second observation's public port is
absent, the first is a full valid observation. -/
theorem judgeNatType_unknown_of_missing_witness :
    missingField obsC2.port = true ∧ judgeNatType obsA1 obsC2 = NatType.Unknown :=
  ⟨by decide,
   judgeNatType_unknown_of_missing obsA1 obsC2
     (Or.inr (Or.inr (Or.inr (Or.inr (Or.inr (Or.inl (by decide)))))))⟩

/-- C6: for every input pair whatsoever, `judgeNatType` never returns
`PortRestrictedCone`: each port-fixed condition implies the corresponding
ip-fixed condition tested earlier by rule 2, so the output is always one of
`Unknown`, `FullCone`, `RestrictedCone`, `Symmetric`. -/
theorem judgeNatType_never_portRestrictedCone (info_1 info_2 : CandidateInfo) :
    judgeNatType info_1 info_2 ≠ NatType.PortRestrictedCone ∧
    (isPortFixedWithTarget1 info_1 info_2 = true → isIpFixedWithTarget1 info_1 info_2 = true) ∧
    (isPortFixedWithTarget2 info_1 info_2 = true → isIpFixedWithTarget2 info_1 info_2 = true) ∧
    (judgeNatType info_1 info_2 = NatType.Unknown ∨
     judgeNatType info_1 info_2 = NatType.FullCone ∨
     judgeNatType info_1 info_2 = NatType.RestrictedCone ∨
     judgeNatType info_1 info_2 = NatType.Symmetric) := by
  have hne : judgeNatType info_1 info_2 ≠ NatType.PortRestrictedCone := by
    unfold judgeNatType
    by_cases h0 : anyMissing info_1 info_2 = true
    · simp [h0]
    · by_cases h1 : fullConeCheck info_1 info_2 = true
      · simp [h0, h1]
      · by_cases h2 : (isIpFixedWithTarget1 info_1 info_2 || isIpFixedWithTarget2 info_1 info_2) = true
        · simp [h0, h1, h2]
        · have h2' := Bool.eq_false_iff.mpr h2
          have h3 := portFixedOr_eq_false_of_ipFixedOr_eq_false info_1 info_2 h2'
          simp [h0, h1, h2', h3]
  refine ⟨hne, portFixed_imp_ipFixed_1 info_1 info_2, portFixed_imp_ipFixed_2 info_1 info_2, ?_⟩
  cases hj : judgeNatType info_1 info_2
  · exact Or.inr (Or.inl rfl)
  · exact Or.inr (Or.inr (Or.inl rfl))
  · exact absurd hj hne
  · exact Or.inr (Or.inr (Or.inr rfl))
  · exact Or.inl rfl

/-- C7: the two classifiers are not extensionally equivalent — there is a pair
of valid observations (the same public endpoints presented to both, candidate
ports rendered by `toString` as in the collector) on which `judgeNatType`
and `variantJudgeNatType` return different NAT classes. -/
theorem judgeNatType_variant_disagree :
    ∃ (i1 i2 : CandidateInfo) (c1 c2 : IceCandidate),
      validObservation i1 = true ∧ validObservation i2 = true ∧
      c1.address = fieldVal i1.ip ∧ c2.address = fieldVal i2.ip ∧
      Option.map toString c1.port = i1.port ∧ Option.map toString c2.port = i2.port ∧
      judgeNatType i1 i2 ≠ variantJudgeNatType c1 c2 := by
  refine ⟨⟨some "1.2.3.4", some "5", some "10.0.0.1", some "3478"⟩,
          ⟨some "1.2.3.4", some "6", some "10.0.0.2", some "19302"⟩,
          ⟨"1.2.3.4", some 5⟩, ⟨"1.2.3.4", some 6⟩,
          ?_, ?_, ?_, ?_, ?_, ?_, ?_⟩ <;> decide

/-- C8: in the variant classifier, the Restricted-Cone guard and the
Port-Restricted-Cone guard are the identical predicate, and since the
Port-Restricted-Cone assignment runs second, the variant never returns
`RestrictedCone`; its only possible outputs are `FullCone`,
`PortRestrictedCone` and `Symmetric`. -/
theorem variantJudgeNatType_never_restrictedCone :
    (∀ c1 c2 : IceCandidate, variantRestrictedGuard c1 c2 = variantPortRestrictedGuard c1 c2) ∧
    ∀ c1 c2 : IceCandidate,
      variantJudgeNatType c1 c2 ≠ NatType.RestrictedCone ∧
      (variantJudgeNatType c1 c2 = NatType.FullCone ∨
       variantJudgeNatType c1 c2 = NatType.PortRestrictedCone ∨
       variantJudgeNatType c1 c2 = NatType.Symmetric) := by
  refine ⟨fun c1 c2 => rfl, fun c1 c2 => ?_⟩
  unfold variantJudgeNatType
  by_cases h2 : variantPortRestrictedGuard c1 c2 = true
  · simp [h2]
  · have h2' : variantPortRestrictedGuard c1 c2 = false := Bool.eq_false_iff.mpr h2
    have h1' : variantRestrictedGuard c1 c2 = false := h2'
    by_cases h0 : (c1.address == c2.address && c1.port == c2.port) = true
    · simp [h0, h1', h2']
    · have h0' := Bool.eq_false_iff.mpr h0
      simp [h0', h1', h2']

/-- C9, counterexample: with the first collection delivering a fully valid
observation and the second an observation whose public port is absent, the
orchestrator returns address "1.2.3.4" (observation 1's public IP), not the
empty address the claim requires alongside `Unknown`. -/
theorem getNatType_invalid_second_obs_counterexample :
    getNatType (Except.ok (some obsA1)) (Except.ok (some obsC2)) = ("1.2.3.4", NatType.Unknown) ∧
    ("1.2.3.4", NatType.Unknown) ≠ (("" : String), NatType.Unknown) := by
  decide

/-- C9 amended: a thrown exception on either collection (caught by the
orchestrator's try/catch) or a `null` collection result yields
`("", Unknown)` and never propagates; if both collections deliver
observations but some field of either is missing, the result's class is
`Unknown` while the address is observation 1's public IP (empty only when
that IP itself is absent or empty). -/
theorem getNatType_failure_handling (r1 r2 : Except Unit (Option CandidateInfo))
    (e : Unit) (i1 i2 : CandidateInfo) (hmiss : anyMissing i1 i2 = true) :
    getNatType (Except.error e) r2 = ("", NatType.Unknown) ∧
    getNatType r1 (Except.error e) = ("", NatType.Unknown) ∧
    getNatType (Except.ok none) r2 = ("", NatType.Unknown) ∧
    getNatType r1 (Except.ok none) = ("", NatType.Unknown) ∧
    getNatType (Except.ok (some i1)) (Except.ok (some i2)) =
      (fieldVal i1.ip, NatType.Unknown) := by
  refine ⟨rfl, ?_, ?_, ?_, ?_⟩
  · cases r1 with
    | error _ => rfl
    | ok o => cases o <;> rfl
  · cases r2 with
    | error _ => rfl
    | ok o => cases o <;> rfl
  · cases r1 with
    | error _ => rfl
    | ok o => cases o <;> rfl
  · simp [getNatType, judgeNatType, hmiss]

/-- Witness for the amended C9 at concrete collection outcomes: a valid first
observation and a second one missing its public port. -/
theorem getNatType_failure_handling_witness :
    anyMissing obsA1 obsC2 = true ∧
    getNatType (Except.error ()) (Except.ok (some obsA1)) = ("", NatType.Unknown) ∧
    getNatType (Except.ok (some obsA1)) (Except.error ()) = ("", NatType.Unknown) ∧
    getNatType (Except.ok none) (Except.ok (some obsA1)) = ("", NatType.Unknown) ∧
    getNatType (Except.ok (some obsA1)) (Except.ok none) = ("", NatType.Unknown) ∧
    getNatType (Except.ok (some obsA1)) (Except.ok (some obsC2)) =
      (fieldVal obsA1.ip, NatType.Unknown) :=
  ⟨by decide,
   (getNatType_failure_handling (Except.ok (some obsA1)) (Except.ok (some obsA1)) ()
      obsA1 obsC2 (by decide)).1,
   (getNatType_failure_handling (Except.ok (some obsA1)) (Except.ok (some obsA1)) ()
      obsA1 obsC2 (by decide)).2.1,
   (getNatType_failure_handling (Except.ok (some obsA1)) (Except.ok (some obsA1)) ()
      obsA1 obsC2 (by decide)).2.2.1,
   (getNatType_failure_handling (Except.ok (some obsA1)) (Except.ok (some obsA1)) ()
      obsA1 obsC2 (by decide)).2.2.2.1,
   (getNatType_failure_handling (Except.ok (some obsA1)) (Except.ok (some obsA1)) ()
      obsA1 obsC2 (by decide)).2.2.2.2⟩

/-- C10: `judgeNatType` is total and deterministic — on any input pair,
including malformed or empty fields, it yields one of the five `NatType`
values, and equal inputs yield equal outputs. -/
theorem judgeNatType_total_deterministic (i1 i2 j1 j2 : CandidateInfo)
    (h1 : i1 = j1) (h2 : i2 = j2) :
    (judgeNatType i1 i2 = NatType.FullCone ∨ judgeNatType i1 i2 = NatType.RestrictedCone ∨
     judgeNatType i1 i2 = NatType.PortRestrictedCone ∨ judgeNatType i1 i2 = NatType.Symmetric ∨
     judgeNatType i1 i2 = NatType.Unknown) ∧
    judgeNatType i1 i2 = judgeNatType j1 j2 := by
  subst h1
  subst h2
  refine ⟨?_, rfl⟩
  cases hj : judgeNatType i1 i2
  · exact Or.inl rfl
  · exact Or.inr (Or.inl rfl)
  · exact Or.inr (Or.inr (Or.inl rfl))
  · exact Or.inr (Or.inr (Or.inr (Or.inl rfl)))
  · exact Or.inr (Or.inr (Or.inr (Or.inr rfl)))

/-- Witness for C10 on a concrete pair with an empty-string field. -/
theorem judgeNatType_total_deterministic_witness :
    (judgeNatType obsA1 obsC2 = NatType.FullCone ∨
     judgeNatType obsA1 obsC2 = NatType.RestrictedCone ∨
     judgeNatType obsA1 obsC2 = NatType.PortRestrictedCone ∨
     judgeNatType obsA1 obsC2 = NatType.Symmetric ∨
     judgeNatType obsA1 obsC2 = NatType.Unknown) ∧
    judgeNatType obsA1 obsC2 = judgeNatType obsA1 obsC2 :=
  judgeNatType_total_deterministic obsA1 obsC2 obsA1 obsC2 rfl rfl
